import Mathlib

/-!
Shallow embedding of the authorization model of the volunteer-management
portal: the row-level-security (RLS) policies, the security-definer helper
functions and the derived views, as they stand after the last migration.

Tables are lists of rows; the authenticated context (`auth.uid()`,
`auth.role()`) is an explicit `Auth` record.  Each SQL policy expression is
translated to a boolean predicate over (database state, auth context, row);
`uuid` keys are modelled as `Nat`, SQL `text` as `String`, SQL `NULL` for a
scalar subquery result as `Option.none`.
-/

/-- The caller context: `auth.uid()` (nullable caller identity) and
`auth.role()` (JWT role, `"authenticated"` for a signed-in caller). -/
structure Auth where
  uid : Option Nat
  jwtRole : String
  deriving Repr, DecidableEq

/-- A row of `public.users`. -/
structure UserRow where
  id : Nat
  email : String
  name : String
  role : String
  programme : String
  photo_url : String
  created_at : Nat
  deriving Repr, DecidableEq

/-- A row of `public.classes`. -/
structure ClassRow where
  id : Nat
  subject : String
  grade : String
  class_label : String
  description : String
  deriving Repr, DecidableEq

/-- A row of `public.class_assignments`. -/
structure AssignmentRow where
  user_id : Nat
  class_id : Nat
  deriving Repr, DecidableEq

/-- A row of `public.syllabus_entries`. -/
structure SyllabusRow where
  id : Nat
  class_id : Nat
  volunteer_id : Nat
  date_taught : String
  duration_min : Nat
  topics : List String
  test_given : Bool
  test_info : String
  notes : String
  attachments : List String
  approved : Bool
  created_at : Nat
  updated_at : Nat
  deriving Repr, DecidableEq

/-- A row of `public.announcements`; `class_id` is nullable (null = global). -/
structure AnnouncementRow where
  id : Nat
  class_id : Option Nat
  author_id : Nat
  message : String
  pinned : Bool
  deriving Repr, DecidableEq

/-- The database state: one list per table. -/
structure DB where
  users : List UserRow
  classes : List ClassRow
  class_assignments : List AssignmentRow
  syllabus_entries : List SyllabusRow
  announcements : List AnnouncementRow
  deriving Repr, DecidableEq

/-- Function `public.get_current_user_role()`:
`SELECT role FROM public.users WHERE id = auth.uid()`, SECURITY DEFINER
(runs without RLS).  Returns `none` (SQL NULL) when the caller is
unauthenticated or has no users row. -/
def get_current_user_role (db : DB) (a : Auth) : Option String :=
  match a.uid with
  | none => none
  | some u => (db.users.find? (fun r => r.id == u)).map (fun r => r.role)

/-- Test `get_current_user_role() = 'admin'` as it appears inside policies
(SQL `NULL = 'admin'` is not true). -/
def isAdmin (db : DB) (a : Auth) : Bool :=
  get_current_user_role db a == some "admin"

/-- Lookup `EXISTS (SELECT 1 FROM class_assignments ca WHERE ca.class_id = k AND
ca.user_id = auth.uid())` — the assignment lookup every class-scoped policy
uses. -/
def assignmentExists (db : DB) (a : Auth) (k : Nat) : Bool :=
  db.class_assignments.any (fun ca => ca.class_id == k && some ca.user_id == a.uid)

/-- CHECK constraint `valid_user_roles`: `role IN ('admin','volunteer','viewer')`. -/
def valid_user_roles (role : String) : Bool :=
  role == "admin" || role == "volunteer" || role == "viewer"

/-! Policies on `public.users` (final state) -/

/-- Policy "Users read own profile or admins read all" (SELECT):
`id = auth.uid() OR get_current_user_role() = 'admin'`. -/
def usersSelect (db : DB) (a : Auth) (row : UserRow) : Bool :=
  some row.id == a.uid || isAdmin db a

/-- Policy "System inserts users" (INSERT): `WITH CHECK (true)`. -/
def usersInsertCheck (_db : DB) (_a : Auth) (_row : UserRow) : Bool :=
  true

/-- Admissibility of an INSERT into `users`: the WITH CHECK of the single
INSERT policy together with the `valid_user_roles` CHECK constraint. -/
def canInsertUser (db : DB) (a : Auth) (row : UserRow) : Bool :=
  usersInsertCheck db a row && valid_user_roles row.role

/-- The scalar subquery in the role-escalation guard:
`(SELECT role FROM public.users WHERE id = auth.uid())`, executed as the
caller, hence filtered by the `users` SELECT policy. -/
def roleSubselect (db : DB) (a : Auth) : Option String :=
  ((db.users.filter (fun r => usersSelect db a r)).find?
      (fun r => some r.id == a.uid)).map (fun r => r.role)

/-- Policy "Users update own profile except role" (UPDATE), USING clause:
`id = auth.uid()`. -/
def usersUpdateUsing (_db : DB) (a : Auth) (row : UserRow) : Bool :=
  some row.id == a.uid

/-- Policy "Users update own profile except role" (UPDATE), WITH CHECK clause:
`id = auth.uid() AND (role = (SELECT role FROM public.users WHERE id =
auth.uid()) OR get_current_user_role() = 'admin')`. -/
def usersUpdateCheck (db : DB) (a : Auth) (row : UserRow) : Bool :=
  some row.id == a.uid &&
    (some row.role == roleSubselect db a || isAdmin db a)

/-- An UPDATE of a `users` row passes RLS iff the old row passes USING and the
new row passes WITH CHECK (the only UPDATE policy on `users`). -/
def usersUpdateAllowed (db : DB) (a : Auth) (old new : UserRow) : Bool :=
  usersUpdateUsing db a old && usersUpdateCheck db a new

/-- Policy "Admins delete users" (DELETE). -/
def usersDelete (db : DB) (a : Auth) (_row : UserRow) : Bool :=
  isAdmin db a

/-! Policies on `public.classes` (final state) -/

/-- Policy "Users view assigned classes" (SELECT). -/
def classesSelectPolicy (db : DB) (a : Auth) (row : ClassRow) : Bool :=
  a.jwtRole == "authenticated" &&
    (isAdmin db a || assignmentExists db a row.id)

/-- Policy "Admins manage classes" (ALL). -/
def classesAdminPolicy (db : DB) (a : Auth) (_row : ClassRow) : Bool :=
  isAdmin db a

/-- SELECT on `classes` is allowed when any permissive policy for SELECT
holds (the SELECT policy or the FOR ALL admin policy). -/
def canSelectClass (db : DB) (a : Auth) (row : ClassRow) : Bool :=
  classesSelectPolicy db a row || classesAdminPolicy db a row

/-! Policies on `public.syllabus_entries` (final state) -/

/-- Policy "Users view assigned class syllabus" (SELECT). -/
def syllabusSelectPolicy (db : DB) (a : Auth) (row : SyllabusRow) : Bool :=
  a.jwtRole == "authenticated" &&
    (isAdmin db a || assignmentExists db a row.class_id)

/-- Policy "Volunteers manage own syllabus" (ALL), USING clause (no WITH
CHECK is declared, so the same expression gates new rows):
`auth.role() = 'authenticated' AND volunteer_id = auth.uid() AND EXISTS
(assignment on the entry's class)`. -/
def volunteersManageOwn (db : DB) (a : Auth) (row : SyllabusRow) : Bool :=
  a.jwtRole == "authenticated" && some row.volunteer_id == a.uid &&
    assignmentExists db a row.class_id

/-- Policy "Admins manage all syllabus" (ALL). -/
def syllabusAdminPolicy (db : DB) (a : Auth) (_row : SyllabusRow) : Bool :=
  isAdmin db a

/-- SELECT on `syllabus_entries`: any permissive policy applying to SELECT. -/
def canSelectSyllabus (db : DB) (a : Auth) (row : SyllabusRow) : Bool :=
  syllabusSelectPolicy db a row || volunteersManageOwn db a row ||
    syllabusAdminPolicy db a row

/-- INSERT on `syllabus_entries`: WITH CHECK of some permissive policy
applying to INSERT (the two FOR ALL policies, each reusing its USING
expression). -/
def canInsertSyllabus (db : DB) (a : Auth) (row : SyllabusRow) : Bool :=
  volunteersManageOwn db a row || syllabusAdminPolicy db a row

/-- UPDATE on `syllabus_entries`: some permissive policy must accept the old
row (USING) and the new row (WITH CHECK); with only the two FOR ALL
policies this is the disjunction below. -/
def canUpdateSyllabus (db : DB) (a : Auth) (old new : SyllabusRow) : Bool :=
  (volunteersManageOwn db a old && volunteersManageOwn db a new) ||
    (syllabusAdminPolicy db a old && syllabusAdminPolicy db a new)

/-! Policies on `public.announcements` (final state) -/

/-- Policy "Users read relevant announcements" (SELECT). -/
def announcementsSelectPolicy (db : DB) (a : Auth) (row : AnnouncementRow) : Bool :=
  a.jwtRole == "authenticated" &&
    (row.class_id == none || isAdmin db a ||
      (match row.class_id with
       | none => false
       | some k => assignmentExists db a k))

/-- Policy "Admins manage all announcements" (ALL). -/
def announcementsAdminPolicy (db : DB) (a : Auth) (_row : AnnouncementRow) : Bool :=
  isAdmin db a

/-- SELECT on `announcements`: the SELECT policy or the FOR ALL admin policy
(the INSERT/UPDATE-only policies do not apply to SELECT). -/
def canSelectAnnouncement (db : DB) (a : Auth) (row : AnnouncementRow) : Bool :=
  announcementsSelectPolicy db a row || announcementsAdminPolicy db a row

/-! Security-definer functions (migration 20250918093108) -/

/-- Errors raised by the plpgsql functions and by constraint checks. -/
inductive PgError where
  | invalidRole : String → PgError
  | uniqueViolation : PgError
  deriving Repr, DecidableEq

/-- The payload of an "identity created" event: the new auth record. -/
structure NewIdentity where
  id : Nat
  email : String
  metaName : String
  deriving Repr, DecidableEq

/-- Trigger function `public.handle_new_user()` (on identity creation, SECURITY
DEFINER): inserts `(new.id, new.email, new.raw_user_meta_data->>'name',
CASE WHEN new.email = 'sunny@example.com' THEN 'admin' ELSE 'viewer' END)`
into `public.users`, `ON CONFLICT (id) DO NOTHING`. -/
def handle_new_user (db : DB) (new : NewIdentity) : DB :=
  if db.users.any (fun r => r.id == new.id) then
    db
  else
    { db with
      users := db.users ++
        [{ id := new.id, email := new.email, name := new.metaName,
           role := if new.email == "sunny@example.com" then ("admin") else ("viewer"),
           programme := "", photo_url := "", created_at := 0 }] }

/-- Function `public.promote_user(target_user, new_role)` (SECURITY DEFINER):
raises `Invalid role: %` when `new_role NOT IN ('admin','volunteer','viewer')`,
otherwise `UPDATE users SET role = new_role WHERE id = target_user`.
Returns the resulting state and the error, if any; on error nothing was
written. -/
def promote_user (db : DB) (target_user : Nat) (new_role : String) :
    DB × Option PgError :=
  if !(new_role == "admin" || new_role == "volunteer" || new_role == "viewer") then
    (db, some (PgError.invalidRole new_role))
  else
    ({ db with
       users := db.users.map
         (fun u => if u.id == target_user then { u with role := new_role } else u) },
     none)

/-- Wrapper: `promote_user` as invoked over RPC by an authenticated caller: the
function body never reads the calling context and runs SECURITY DEFINER, so
the caller is ignored. -/
def rpc_promote_user (db : DB) (_caller : Auth) (target_user : Nat)
    (new_role : String) : DB × Option PgError :=
  promote_user db target_user new_role

/-! Class-assignment upsert (`handleClassAssignment`, AdminDashboard) -/

/-- Upsert `supabase.from('class_assignments').upsert(\x7buser_id, class_id\x7d,
\x7bonConflict: 'user_id,class_id'\x7d)`: when a row with the same
`(user_id, class_id)` key exists it is updated in place (here: overwritten
with the same key columns), otherwise the row is inserted; no error is
raised on conflict. -/
def upsertAssignment (rows : List AssignmentRow) (u k : Nat) :
    Except PgError (List AssignmentRow) :=
  if rows.any (fun r => r.user_id == u && r.class_id == k) then
    Except.ok (rows.map (fun r =>
      if r.user_id == u && r.class_id == k then
        { user_id := u, class_id := k }
      else r))
  else
    Except.ok (rows ++ [{ user_id := u, class_id := k }])

/-- A plain INSERT into `class_assignments` under the unique
`(user_id, class_id)` constraint, for contrast: it errors on a duplicate. -/
def insertAssignment (rows : List AssignmentRow) (u k : Nat) :
    Except PgError (List AssignmentRow) :=
  if rows.any (fun r => r.user_id == u && r.class_id == k) then
    Except.error PgError.uniqueViolation
  else
    Except.ok (rows ++ [{ user_id := u, class_id := k }])

/-! Derived views (migration 20250926075646, `security_invoker = true`)

With `security_invoker = true` the base tables' RLS policies are evaluated
against the querying caller, so a view query only ever sees base rows the
caller could select directly. -/

/-- A row of the `pending_volunteers` view. -/
structure PendingVolunteerRow where
  id : Nat
  name : String
  email : String
  programme : String
  created_at : Nat
  deriving Repr, DecidableEq

/-- View `CREATE VIEW pending_volunteers WITH (security_invoker = true) AS
SELECT id, name, email, programme, created_at FROM users WHERE
role = 'viewer'`: the caller's `users` SELECT policy filters the base
scan. -/
def pending_volunteers (db : DB) (a : Auth) : List PendingVolunteerRow :=
  ((db.users.filter (fun u => usersSelect db a u)).filter
      (fun u => u.role == "viewer")).map
    (fun u => { id := u.id, name := u.name, email := u.email,
                programme := u.programme, created_at := u.created_at })

/-- A row of the `volunteer_dashboard` view. -/
structure DashboardRow where
  syllabus_entry_id : Nat
  class_id : Nat
  volunteer_id : Nat
  date_taught : String
  duration_min : Nat
  topics : List String
  test_given : Bool
  test_info : String
  notes : String
  attachments : List String
  entry_created_at : Nat
  entry_updated_at : Nat
  volunteer_name : String
  volunteer_email : String
  programme : String
  photo_url : String
  subject : String
  grade : String
  class_label : String
  description : String
  deriving Repr, DecidableEq

/-- The projection the `volunteer_dashboard` SELECT list applies to one
joined `(syllabus_entries, users, classes)` triple. -/
def dashboardProj (se : SyllabusRow) (u : UserRow) (c : ClassRow) : DashboardRow :=
  { syllabus_entry_id := se.id, class_id := se.class_id,
    volunteer_id := se.volunteer_id, date_taught := se.date_taught,
    duration_min := se.duration_min, topics := se.topics,
    test_given := se.test_given, test_info := se.test_info,
    notes := se.notes, attachments := se.attachments,
    entry_created_at := se.created_at, entry_updated_at := se.updated_at,
    volunteer_name := u.name, volunteer_email := u.email,
    programme := u.programme, photo_url := u.photo_url,
    subject := c.subject, grade := c.grade, class_label := c.class_label,
    description := c.description }

/-- View `CREATE VIEW volunteer_dashboard WITH (security_invoker = true) AS
SELECT ... FROM syllabus_entries se JOIN users u ON se.volunteer_id = u.id
JOIN classes c ON se.class_id = c.id WHERE u.role IN ('volunteer','admin')`:
each base scan is filtered by that table's SELECT policies for the caller,
then the join and WHERE conditions apply. -/
def volunteer_dashboard (db : DB) (a : Auth) : List DashboardRow :=
  (db.syllabus_entries.filter (fun se => canSelectSyllabus db a se)).flatMap
    (fun se =>
      (db.users.filter (fun u => usersSelect db a u)).flatMap
        (fun u =>
          (db.classes.filter (fun c => canSelectClass db a c)).filterMap
            (fun c =>
              if se.volunteer_id == u.id && se.class_id == c.id &&
                  (u.role == "volunteer" || u.role == "admin") then
                some (dashboardProj se u c)
              else none)))

/-! Concrete fixtures used by the witnesses and counterexamples -/

/-- Concrete database for the C1 witness: one non-admin volunteer. -/
def dbC1 : DB :=
  { users := [{ id := 1, email := "v@example.org", name := "V",
                role := "volunteer", programme := "", photo_url := "",
                created_at := 0 }],
    classes := [], class_assignments := [], syllabus_entries := [],
    announcements := [] }

/-- Caller context for the C1 witness. -/
def authC1 : Auth := { uid := some 1, jwtRole := "authenticated" }

/-- Concrete database for the C2 witness: volunteer 5 assigned to class 9. -/
def dbC2 : DB :=
  { users := [{ id := 5, email := "v@example.org", name := "V",
                role := "volunteer", programme := "", photo_url := "",
                created_at := 0 }],
    classes := [{ id := 9, subject := "Math", grade := "6",
                  class_label := "6-Math", description := "" }],
    class_assignments := [{ user_id := 5, class_id := 9 }],
    syllabus_entries := [{ id := 1, class_id := 9, volunteer_id := 5,
                           date_taught := "", duration_min := 60, topics := [],
                           test_given := false, test_info := "", notes := "",
                           attachments := [], approved := false,
                           created_at := 0, updated_at := 0 }],
    announcements := [{ id := 1, class_id := some 9, author_id := 5,
                        message := "hi", pinned := false }] }

/-- Caller context for the C2 witness. -/
def authC2 : Auth := { uid := some 5, jwtRole := "authenticated" }

/-- Concrete database for the C3 witness: a viewer looking at their own
pending row. -/
def dbC3 : DB :=
  { users := [{ id := 2, email := "p@example.org", name := "P",
                role := "viewer", programme := "", photo_url := "",
                created_at := 0 }],
    classes := [], class_assignments := [], syllabus_entries := [],
    announcements := [] }

/-- Caller context for the C3 witness. -/
def authC3 : Auth := { uid := some 2, jwtRole := "authenticated" }

/-- Concrete database for the C4 witness. -/
def dbC4 : DB :=
  { users := [{ id := 3, email := "t@example.org", name := "T",
                role := "viewer", programme := "", photo_url := "",
                created_at := 0 }],
    classes := [], class_assignments := [], syllabus_entries := [],
    announcements := [] }

/-- Empty database for the C5 counterexample and witness. -/
def dbC5 : DB :=
  { users := [], classes := [], class_assignments := [],
    syllabus_entries := [], announcements := [] }

/-- Concrete database for the C6 witness: volunteer 5 assigned to class 9,
plus a second user 6. -/
def dbC6 : DB :=
  { users := [{ id := 5, email := "v@example.org", name := "V",
                role := "volunteer", programme := "", photo_url := "",
                created_at := 0 },
              { id := 6, email := "w@example.org", name := "W",
                role := "volunteer", programme := "", photo_url := "",
                created_at := 0 }],
    classes := [{ id := 9, subject := "Math", grade := "6",
                  class_label := "6-Math", description := "" }],
    class_assignments := [{ user_id := 5, class_id := 9 }],
    syllabus_entries := [], announcements := [] }

/-- Caller context for the C6 witness: volunteer 5. -/
def authC6 : Auth := { uid := some 5, jwtRole := "authenticated" }

/-- New syllabus row for the C6 witness, named for volunteer 5 on class 9. -/
def rowC6 : SyllabusRow :=
  { id := 1, class_id := 9, volunteer_id := 5, date_taught := "",
    duration_min := 60, topics := [], test_given := false, test_info := "",
    notes := "", attachments := [], approved := false, created_at := 0,
    updated_at := 0 }

/-- Caller context for the C7 counterexample: volunteer 7. -/
def authC7 : Auth := { uid := some 7, jwtRole := "authenticated" }

/-- Syllabus entry for the C7 counterexample, owned by volunteer 7, not yet
approved. -/
def entryC7 : SyllabusRow :=
  { id := 1, class_id := 4, volunteer_id := 7, date_taught := "",
    duration_min := 45, topics := [], test_given := false, test_info := "",
    notes := "", attachments := [], approved := false, created_at := 0,
    updated_at := 0 }

/-- Concrete database for the C7 counterexample. -/
def dbC7 : DB :=
  { users := [{ id := 7, email := "v7@example.org", name := "V7",
                role := "volunteer", programme := "", photo_url := "",
                created_at := 0 }],
    classes := [], class_assignments := [{ user_id := 7, class_id := 4 }],
    syllabus_entries := [entryC7], announcements := [] }

/-- Concrete database for the C9 witness: a single viewer. -/
def dbC9 : DB :=
  { users := [{ id := 1, email := "w@example.org", name := "W",
                role := "viewer", programme := "", photo_url := "",
                created_at := 0 }],
    classes := [], class_assignments := [], syllabus_entries := [],
    announcements := [] }

/-- Caller context for the C9 witness: the viewer themself. -/
def authC9 : Auth := { uid := some 1, jwtRole := "authenticated" }

/-! Helper lemmas -/

/-- Rows with the caller's own id always pass the `users` SELECT policy, so
filtering by that policy does not change a lookup of the caller's own row. -/
theorem find_own_row_filter (db : DB) (a : Auth) (u : Nat) (huid : a.uid = some u)
    (l : List UserRow) :
    (l.filter (fun r => usersSelect db a r)).find? (fun r => r.id == u) =
      l.find? (fun r => r.id == u) := by
  induction l with
  | nil => rfl
  | cons r t ih =>
    by_cases h : r.id = u
    · have hb : usersSelect db a r = true := by
        simp [usersSelect, huid, h]
      simp [List.filter_cons, hb, List.find?_cons, h]
    · have hbeq : (r.id == u) = false := by simp [h]
      cases hb : usersSelect db a r with
      | true => simp [List.filter_cons, hb, List.find?_cons, hbeq, ih]
      | false => simp [List.filter_cons, hb, List.find?_cons, hbeq, ih]

/-- The RLS-filtered scalar subquery in the role-escalation guard returns the
same role as the security-definer role lookup: the caller can always see
their own row. -/
theorem roleSubselect_eq (db : DB) (a : Auth) :
    roleSubselect db a = get_current_user_role db a := by
  unfold roleSubselect get_current_user_role
  cases huid : a.uid with
  | none =>
    have h : ((db.users.filter (fun r => usersSelect db a r)).find?
        (fun r => some r.id == (none : Option Nat))) = none :=
      List.find?_eq_none.mpr (fun x _ => by simp)
    rw [h]
    rfl
  | some u =>
    have hpred : (fun r : UserRow => some r.id == (some u : Option Nat)) =
        (fun r : UserRow => r.id == u) := rfl
    rw [hpred, find_own_row_filter db a u huid]

/-- C1 — Role-escalation guard: for a user U whose stored role is not
`admin`, any UPDATE of U's own `users` row that changes the `role` field is
rejected by the RLS policy "Users update own profile except role", whatever
other fields change; an admin caller updating their own row passes the
policy even when the role changes. -/
theorem spec_C1 (db : DB) (a : Auth) (u : Nat) (old new : UserRow)
    (huid : a.uid = some u)
    (hfind : db.users.find? (fun r => r.id == u) = some old) :
    (old.role ≠ "admin" → new.role ≠ old.role →
      usersUpdateAllowed db a old new = false) ∧
    (old.role = "admin" → new.id = u →
      usersUpdateAllowed db a old new = true) := by
  have hrole : get_current_user_role db a = some old.role := by
    simp [get_current_user_role, huid, hfind]
  have hsub : roleSubselect db a = some old.role := by
    rw [roleSubselect_eq, hrole]
  have hold_id : old.id = u := by
    have := List.find?_some hfind
    simpa using this
  constructor
  · intro hadm hneq
    simp [usersUpdateAllowed, usersUpdateUsing, usersUpdateCheck, isAdmin,
      hsub, hrole, huid, hneq, hadm]
  · intro hadm hid
    simp [usersUpdateAllowed, usersUpdateUsing, usersUpdateCheck, isAdmin,
      hsub, hrole, huid, hold_id, hid, hadm]

/-- Witness for C1 at a concrete state: the stored volunteer cannot set
their own role to admin. -/
theorem spec_C1_witness :
    usersUpdateAllowed dbC1 authC1 (dbC1.users.get ⟨0, by decide⟩)
      { (dbC1.users.get ⟨0, by decide⟩) with role := "admin" } = false :=
  (spec_C1 dbC1 authC1 1 (dbC1.users.get ⟨0, by decide⟩)
      { (dbC1.users.get ⟨0, by decide⟩) with role := "admin" }
      rfl (by decide)).1 (by decide) (by decide)

/-- C2 — For a non-admin authenticated caller C and class K, SELECT on
`classes`, `syllabus_entries` and `announcements` rows scoped to K is
permitted exactly when a `class_assignments` row for (C, K) exists. -/
theorem spec_C2 (db : DB) (a : Auth) (c k : Nat)
    (hauth : a.jwtRole = "authenticated") (huid : a.uid = some c)
    (hna : get_current_user_role db a ≠ some "admin") :
    ∀ (cl : ClassRow) (se : SyllabusRow) (an : AnnouncementRow),
      cl.id = k → se.class_id = k → an.class_id = some k →
      (canSelectClass db a cl =
          db.class_assignments.any (fun r => r.user_id == c && r.class_id == k) ∧
       canSelectSyllabus db a se =
          db.class_assignments.any (fun r => r.user_id == c && r.class_id == k) ∧
       canSelectAnnouncement db a an =
          db.class_assignments.any (fun r => r.user_id == c && r.class_id == k)) := by
  intro cl se an hcl hse han
  have hAdm : isAdmin db a = false := by
    simp [isAdmin]
    exact hna
  have hswap : db.class_assignments.any (fun r => r.user_id == c && r.class_id == k) =
      assignmentExists db a k := by
    have hfun : (fun r : AssignmentRow => r.class_id == k && some r.user_id == a.uid) =
        (fun r : AssignmentRow => r.user_id == c && r.class_id == k) := by
      funext r
      rw [huid]
      exact Bool.and_comm _ _
    unfold assignmentExists
    rw [hfun]
  rw [hswap]
  refine ⟨?_, ?_, ?_⟩
  · simp [canSelectClass, classesSelectPolicy, classesAdminPolicy, hauth,
      hAdm, hcl]
  · cases hA : assignmentExists db a k with
    | true =>
      simp [canSelectSyllabus, syllabusSelectPolicy, volunteersManageOwn,
        syllabusAdminPolicy, hauth, hAdm, hse, hA]
    | false =>
      simp [canSelectSyllabus, syllabusSelectPolicy, volunteersManageOwn,
        syllabusAdminPolicy, hauth, hAdm, hse, hA]
  · simp [canSelectAnnouncement, announcementsSelectPolicy,
      announcementsAdminPolicy, hauth, hAdm, han]

/-- Witness for C2 at a concrete state: the assigned volunteer's visibility
of class 9 rows coincides with the existence of their assignment. -/
theorem spec_C2_witness :
    canSelectClass dbC2 authC2 (dbC2.classes.get ⟨0, by decide⟩) =
        dbC2.class_assignments.any (fun r => r.user_id == 5 && r.class_id == 9) ∧
      canSelectSyllabus dbC2 authC2 (dbC2.syllabus_entries.get ⟨0, by decide⟩) =
        dbC2.class_assignments.any (fun r => r.user_id == 5 && r.class_id == 9) ∧
      canSelectAnnouncement dbC2 authC2 (dbC2.announcements.get ⟨0, by decide⟩) =
        dbC2.class_assignments.any (fun r => r.user_id == 5 && r.class_id == 9) :=
  spec_C2 dbC2 authC2 5 9 rfl rfl (by decide)
    (dbC2.classes.get ⟨0, by decide⟩) (dbC2.syllabus_entries.get ⟨0, by decide⟩)
    (dbC2.announcements.get ⟨0, by decide⟩) rfl rfl rfl

/-- C3 — View permission propagation: with `security_invoker = true`, every
row surfaced by `pending_volunteers` or `volunteer_dashboard` is a
projection (resp. join projection) of base-table rows the same caller can
already SELECT under the per-table policies, and every row
`pending_volunteers` surfaces comes from a `users` row with role `viewer`,
whoever the caller is. -/
theorem spec_C3 (db : DB) (a : Auth) :
    (∀ row ∈ pending_volunteers db a,
       ∃ u, u ∈ db.users ∧ usersSelect db a u = true ∧ u.role = "viewer" ∧
         row = { id := u.id, name := u.name, email := u.email,
                 programme := u.programme, created_at := u.created_at }) ∧
    (∀ row ∈ volunteer_dashboard db a,
       ∃ se u c, se ∈ db.syllabus_entries ∧ canSelectSyllabus db a se = true ∧
         u ∈ db.users ∧ usersSelect db a u = true ∧
         c ∈ db.classes ∧ canSelectClass db a c = true ∧
         row = dashboardProj se u c) := by
  constructor
  · intro row hrow
    simp only [pending_volunteers, List.mem_map, List.mem_filter] at hrow
    obtain ⟨u, ⟨⟨hmem, hsel⟩, hrole⟩, hproj⟩ := hrow
    exact ⟨u, hmem, hsel, by simpa using hrole, hproj.symm⟩
  · intro row hrow
    simp only [volunteer_dashboard, List.mem_flatMap, List.mem_filterMap,
      List.mem_filter] at hrow
    obtain ⟨se, ⟨hse_mem, hse_sel⟩, u, ⟨hu_mem, hu_sel⟩, c, ⟨hc_mem, hc_sel⟩,
      hif⟩ := hrow
    refine ⟨se, u, c, hse_mem, hse_sel, hu_mem, hu_sel, hc_mem, hc_sel, ?_⟩
    by_cases hcond : (se.volunteer_id == u.id && se.class_id == c.id &&
        (u.role == "volunteer" || u.role == "admin")) = true
    · rw [if_pos hcond] at hif
      exact (Option.some.inj hif).symm
    · rw [if_neg hcond] at hif
      exact absurd hif (by simp)

/-- Witness for C3 at a concrete state: the one `pending_volunteers` row
traces back to a caller-readable viewer row. -/
theorem spec_C3_witness :
    ∃ u, u ∈ dbC3.users ∧ usersSelect dbC3 authC3 u = true ∧
      u.role = "viewer" ∧
      ({ id := 2, name := "P", email := "p@example.org", programme := "",
         created_at := 0 } : PendingVolunteerRow) =
        { id := u.id, name := u.name, email := u.email,
          programme := u.programme, created_at := u.created_at } :=
  (spec_C3 dbC3 authC3).1
    { id := 2, name := "P", email := "p@example.org", programme := "",
      created_at := 0 } (by decide)

/-- C4 — promote_user validates the submitted role against the closed enum
before writing: a role outside {admin, volunteer, viewer} is rejected with
the InvalidRole error and the state is returned unchanged; a role inside
the enum passes validation and the call raises no error. -/
theorem spec_C4 (db : DB) (t : Nat) (r : String) :
    (valid_user_roles r = false →
       promote_user db t r = (db, some (PgError.invalidRole r))) ∧
    (valid_user_roles r = true → (promote_user db t r).2 = none) := by
  constructor
  · intro h
    unfold valid_user_roles at h
    simp [promote_user, h]
  · intro h
    unfold valid_user_roles at h
    simp [promote_user, h]

/-- Witness for C4 at concrete inputs: promoting to the out-of-enum role
superadmin errors and leaves the state untouched; an in-enum role passes. -/
theorem spec_C4_witness :
    valid_user_roles ("superadmin") = false ∧
    promote_user dbC4 3 ("superadmin") =
      (dbC4, some (PgError.invalidRole ("superadmin"))) ∧
    valid_user_roles ("volunteer") = true ∧
    (promote_user dbC4 3 ("volunteer")).2 = none :=
  ⟨by decide, (spec_C4 dbC4 3 ("superadmin")).1 (by decide), by decide,
   (spec_C4 dbC4 3 ("volunteer")).2 (by decide)⟩

/-- C9 — promote_user performs no authorization check on the caller: for any
caller whatsoever (the call ignores the auth context entirely) and any
in-enum role, the call succeeds and sets the target's role — so a non-admin
can promote themself to admin. -/
theorem spec_C9 (db : DB) (a : Auth) (t : Nat) (r : String)
    (hr : valid_user_roles r = true) :
    (rpc_promote_user db a t r).2 = none ∧
    (∀ u, u ∈ (rpc_promote_user db a t r).1.users → u.id = t → u.role = r) ∧
    (∀ a' : Auth, rpc_promote_user db a' t r = rpc_promote_user db a t r) := by
  unfold valid_user_roles at hr
  refine ⟨?_, ?_, fun a' => rfl⟩
  · simp [rpc_promote_user, promote_user, hr]
  · intro u hu hid
    simp only [rpc_promote_user, promote_user, hr, Bool.not_true,
      Bool.false_eq_true, if_false, List.mem_map] at hu
    obtain ⟨v, hv, hvu⟩ := hu
    by_cases h : v.id = t
    · simp [h] at hvu
      rw [← hvu]
    · simp [h] at hvu
      rw [← hvu] at hid
      exact absurd hid h

/-- Witness for C9 at a concrete state: viewer 1 promotes themself to admin
with no error. -/
theorem spec_C9_witness :
    (rpc_promote_user dbC9 authC9 1 ("admin")).2 = none ∧
    (∀ u, u ∈ (rpc_promote_user dbC9 authC9 1 ("admin")).1.users →
      u.id = 1 → u.role = "admin") :=
  ⟨(spec_C9 dbC9 authC9 1 ("admin") (by decide)).1,
   (spec_C9 dbC9 authC9 1 ("admin") (by decide)).2.1⟩

/-- Counterexample to C5 as stated: the provisioning trigger does not give
role viewer to every new identity — the identity with email
sunny@example.com is provisioned with role admin. -/
theorem spec_C5_cex :
    ¬ (∀ r ∈ (handle_new_user dbC5 ⟨1, "sunny@example.com", "Sunny"⟩).users,
        r.role = "viewer") := by decide

/-- C5 amended — every "identity created" event creates a corresponding
users row; its role is viewer unless the identity's email is
sunny@example.com, which receives admin; and a duplicate invocation for the
same identity is a no-op that raises no error. -/
theorem spec_C5 (db : DB) (ev : NewIdentity) :
    ((∀ r ∈ db.users, r.id ≠ ev.id) →
       ∃ r, r ∈ (handle_new_user db ev).users ∧ r.id = ev.id ∧
         r.email = ev.email ∧
         r.role = (if ev.email = "sunny@example.com" then ("admin")
                   else ("viewer"))) ∧
    handle_new_user (handle_new_user db ev) ev = handle_new_user db ev := by
  constructor
  · intro h
    have hany : db.users.any (fun r => r.id == ev.id) = false := by
      rw [List.any_eq_false]
      intro x hx
      simpa using h x hx
    refine ⟨{ id := ev.id, email := ev.email, name := ev.metaName,
              role := if ev.email == "sunny@example.com" then ("admin")
                      else ("viewer"),
              programme := "", photo_url := "", created_at := 0 },
            ?_, rfl, rfl, ?_⟩
    · simp [handle_new_user, hany]
    · by_cases he : ev.email = "sunny@example.com"
      · simp [he]
      · simp [he]
  · cases hany : db.users.any (fun r => r.id == ev.id) with
    | true => simp [handle_new_user, hany]
    | false => simp [handle_new_user, hany, List.any_append]

/-- Witness for C5 at a concrete input: a fresh ordinary identity is
provisioned, with role equal to the email-based case split (here viewer). -/
theorem spec_C5_witness :
    ∃ r, r ∈ (handle_new_user dbC5 ⟨4, "new@example.org", "N"⟩).users ∧
      r.id = 4 ∧ r.email = "new@example.org" ∧
      r.role = (if ("new@example.org" : String) = "sunny@example.com"
                then ("admin") else ("viewer")) :=
  (spec_C5 dbC5 ⟨4, "new@example.org", "N"⟩).1 (by decide)

/-- C6 — For a non-admin authenticated caller V, an INSERT into
`syllabus_entries` passes RLS exactly when the inserted row names V as its
volunteer and V holds an assignment to the row's class; in particular an
insert naming a different volunteer is rejected. -/
theorem spec_C6 (db : DB) (a : Auth) (v : Nat) (row : SyllabusRow)
    (hauth : a.jwtRole = "authenticated") (huid : a.uid = some v)
    (hna : get_current_user_role db a ≠ some "admin") :
    canInsertSyllabus db a row =
      ((row.volunteer_id == v) && assignmentExists db a row.class_id) := by
  have hAdm : isAdmin db a = false := by
    simp [isAdmin]
    exact hna
  simp [canInsertSyllabus, volunteersManageOwn, syllabusAdminPolicy, hauth,
    hAdm, huid]

/-- Witness for C6 at a concrete state: volunteer 5's own insert is governed
exactly by the named-volunteer-and-assignment condition. -/
theorem spec_C6_witness :
    canInsertSyllabus dbC6 authC6 rowC6 =
      ((rowC6.volunteer_id == 5) && assignmentExists dbC6 authC6 rowC6.class_id) :=
  spec_C6 dbC6 authC6 5 rowC6 rfl rfl (by decide)

/-- Counterexample to C7 as stated: a non-admin owning volunteer's update
that flips the approval flag from false to true passes the RLS policy set —
nothing in the code keeps the approval flag admin-only. -/
theorem spec_C7_cex :
    get_current_user_role dbC7 authC7 ≠ some "admin" ∧
    entryC7.approved = false ∧
    ({ entryC7 with approved := true } : SyllabusRow).approved = true ∧
    canUpdateSyllabus dbC7 authC7 entryC7 { entryC7 with approved := true } =
      true := by decide

/-- C7 amended — the update policies on `syllabus_entries` place no
constraint at all on the approval flag: whether an update is permitted (for
any caller, owner or admin) is unchanged under arbitrary modification of
the `approved` field of the old and the new row, so the owning volunteer
may change it exactly as freely as an admin. -/
theorem spec_C7 (db : DB) (a : Auth) (old new : SyllabusRow) (b b' : Bool) :
    canUpdateSyllabus db a { old with approved := b }
        { new with approved := b' } =
      canUpdateSyllabus db a old new := rfl

/-- The overwrite the upsert applies on conflict preserves the
`(user_id, class_id)` key test. -/
theorem upsert_key_map (u k : Nat) (r : AssignmentRow) :
    (((if r.user_id == u && r.class_id == k then (⟨u, k⟩ : AssignmentRow)
       else r).user_id == u) &&
     ((if r.user_id == u && r.class_id == k then (⟨u, k⟩ : AssignmentRow)
       else r).class_id == k)) =
      (r.user_id == u && r.class_id == k) := by
  by_cases hk : (r.user_id == u && r.class_id == k) = true
  · simp [hk]
  · simp [hk]

/-- The overwrite the upsert applies on conflict is idempotent. -/
theorem upsert_overwrite_idem (u k : Nat) (r : AssignmentRow) :
    (if ((if r.user_id == u && r.class_id == k then (⟨u, k⟩ : AssignmentRow)
          else r).user_id == u) &&
        ((if r.user_id == u && r.class_id == k then (⟨u, k⟩ : AssignmentRow)
          else r).class_id == k)
     then (⟨u, k⟩ : AssignmentRow)
     else if r.user_id == u && r.class_id == k then (⟨u, k⟩ : AssignmentRow)
     else r) =
      (if r.user_id == u && r.class_id == k then (⟨u, k⟩ : AssignmentRow)
       else r) := by
  by_cases hk : (r.user_id == u && r.class_id == k) = true
  · simp [hk]
  · simp [hk]

/-- C8 — Assignment upsert idempotence: starting from a table satisfying the
unique (user, class) constraint, the first upsert succeeds, the second
identical upsert succeeds without error and changes nothing, and exactly
one row with that (user, class) key is left. -/
theorem spec_C8 (rows : List AssignmentRow) (u k : Nat)
    (huniq : (rows.filter
        (fun r => r.user_id == u && r.class_id == k)).length ≤ 1) :
    ∃ once, upsertAssignment rows u k = Except.ok once ∧
      upsertAssignment once u k = Except.ok once ∧
      (once.filter (fun r => r.user_id == u && r.class_id == k)).length = 1 := by
  cases h : rows.any (fun r => r.user_id == u && r.class_id == k) with
  | false =>
    have hall : ∀ r ∈ rows, (r.user_id == u && r.class_id == k) = false := by
      intro r hr
      have := List.any_eq_false.mp h r hr
      cases hv : (r.user_id == u && r.class_id == k) with
      | true => exact absurd hv this
      | false => rfl
    refine ⟨rows ++ [⟨u, k⟩], ?_, ?_, ?_⟩
    · simp [upsertAssignment, h]
    · have hany2 : (rows ++ [(⟨u, k⟩ : AssignmentRow)]).any
          (fun r => r.user_id == u && r.class_id == k) = true := by
        simp [List.any_append]
      simp only [upsertAssignment, hany2, if_true]
      have hmap : (rows ++ [(⟨u, k⟩ : AssignmentRow)]).map
          (fun r => if r.user_id == u && r.class_id == k
                    then (⟨u, k⟩ : AssignmentRow) else r) =
          rows ++ [(⟨u, k⟩ : AssignmentRow)] := by
        rw [List.map_append]
        congr 1
        · rw [List.map_congr_left (fun r hr => ?_), List.map_id]
          rw [hall r hr]
          rfl
        · simp
      rw [hmap]
    · rw [List.filter_append, List.filter_eq_nil_iff.mpr ?_]
      · simp
      · intro r hr
        rw [hall r hr]
        exact Bool.false_ne_true
  | true =>
    have hcomp : ((fun r : AssignmentRow => r.user_id == u && r.class_id == k) ∘
        (fun r : AssignmentRow => if r.user_id == u && r.class_id == k
                                  then (⟨u, k⟩ : AssignmentRow) else r)) =
        (fun r : AssignmentRow => r.user_id == u && r.class_id == k) :=
      funext (fun r => upsert_key_map u k r)
    refine ⟨rows.map (fun r => if r.user_id == u && r.class_id == k
                               then (⟨u, k⟩ : AssignmentRow) else r),
            ?_, ?_, ?_⟩
    · simp [upsertAssignment, h]
    · have hany2 : (rows.map (fun r => if r.user_id == u && r.class_id == k
            then (⟨u, k⟩ : AssignmentRow) else r)).any
          (fun r => r.user_id == u && r.class_id == k) = true := by
        rw [List.any_map, hcomp]
        exact h
      simp only [upsertAssignment, hany2, if_true]
      rw [List.map_map]
      exact congrArg Except.ok
        (List.map_congr_left (fun r _ => upsert_overwrite_idem u k r))
    · rw [List.filter_map, hcomp, List.length_map]
      have hpos : 0 < (rows.filter
          (fun r => r.user_id == u && r.class_id == k)).length := by
        obtain ⟨x, hx, hkx⟩ := List.any_eq_true.mp h
        exact List.length_pos.mpr
          (List.ne_nil_of_mem (List.mem_filter.mpr ⟨hx, hkx⟩))
      omega

/-- Witness for C8 at a concrete input: two identical upserts into an empty
table leave exactly one (1, 2) row and the second call returns without
error. -/
theorem spec_C8_witness :
    ∃ once, upsertAssignment ([] : List AssignmentRow) 1 2 = Except.ok once ∧
      upsertAssignment once 1 2 = Except.ok once ∧
      (once.filter (fun r => r.user_id == 1 && r.class_id == 2)).length = 1 :=
  spec_C8 ([] : List AssignmentRow) 1 2 (by decide)

/-- C10 — The `users` INSERT policy is unconditionally true: every caller may
insert a `users` row with any id and any role, and overall insert
admissibility (policy WITH CHECK plus the `valid_user_roles` CHECK
constraint) reduces to the enum constraint alone — insertion is neither
reserved to the provisioning hook nor tied to the caller's identity. -/
theorem spec_C10 (db : DB) (a : Auth) (row : UserRow) :
    usersInsertCheck db a row = true ∧
    canInsertUser db a row = valid_user_roles row.role :=
  ⟨rfl, by simp [canInsertUser, usersInsertCheck]⟩
